import Mathlib

/-!
Shallow embedding of the sprint analytics engine of `sprint_dashboard.py`
(classes `SprintAnalytics` and `MultiSprintAnalytics`) together with the
done-predicate `is_closed` of `app.py`.  Python floats are modelled as exact
rationals, `datetime` values as integer day numbers (the engine only ever
uses `.days` of differences), Python dictionaries as insertion-ordered
association lists, and the wall clock read `datetime.now(...)` as an explicit
`today` parameter.
-/

/-- Python `round(x, 1)` uses round-half-to-even on the value scaled by 10.
`roundHalfEven x` is the nearest integer to `x`, ties going to the even one. -/
def roundHalfEven (x : ℚ) : ℤ :=
  if Int.fract x = 1 / 2 then 2 * round (x / 2) else round x

/-- Model of Python `round(x, 1)`. -/
def pyRound1 (x : ℚ) : ℚ := (roundHalfEven (x * 10) : ℚ) / 10

/-- A work item as consumed by the engine: the four optional fields the
engine reads from `wi['fields']`.  `none` models a missing key.
`assignedTo = none` models a non-dict `System.AssignedTo` value,
`assignedTo = some none` a dict without a `displayName` key. -/
structure WorkItem where
  storyPoints : Option ℚ
  state : Option String
  wiType : Option String
  assignedTo : Option (Option String)

/-- `fields.get('Microsoft.VSTS.Scheduling.StoryPoints', 0) or 0`. -/
def pointsOf (wi : WorkItem) : ℚ := wi.storyPoints.getD 0

/-- `fields.get('System.State', 'Unknown')`. -/
def stateOf (wi : WorkItem) : String := wi.state.getD "Unknown"

/-- `fields.get('System.WorkItemType', 'Unknown')`. -/
def typeOf (wi : WorkItem) : String := wi.wiType.getD "Unknown"

/-- The assignee-name extraction of `calculate_metrics`:
`assigned_to.get('displayName', 'Unassigned')` when `System.AssignedTo` is a
dict, `'Unassigned'` otherwise. -/
def assigneeName (wi : WorkItem) : String :=
  match wi.assignedTo with
  | some (some n) => n
  | some none => "Unassigned"
  | none => "Unassigned"

/-- Python `str.lower()` (the engine only ever lowercases ASCII state
names, for which per-character lowering is exact). -/
def pyLower (s : String) : String := ⟨s.data.map Char.toLower⟩

/-- The engine's point-completion test, line 56 of `sprint_dashboard.py`:
`state.lower() in ['closed', 'done', 'resolved']`. -/
def isDoneForPoints (state : String) : Bool :=
  pyLower state ∈ ["closed", "done", "resolved"]

/-- The top-level UI done-predicate, line 481 of `app.py`:
`main_state.lower() in ['closed', 'done', 'resolved', 'completed']`. -/
def is_closed (state : String) : Bool :=
  pyLower state ∈ ["closed", "done", "resolved", "completed"]

/-- Insertion-ordered association list standing in for a Python dict with
integer values, as used for the three count maps. -/
abbrev CountMap := List (String × ℕ)

/-- Python `d.get(k, v)`. -/
def dictGetD (d : CountMap) (k : String) (v : ℕ) : ℕ :=
  ((d.find? (fun p => p.1 = k)).map (fun p => p.2)).getD v

/-- Python `k in d`. -/
def dictContains (d : CountMap) (k : String) : Bool :=
  d.any (fun p => p.1 = k)

/-- Python `d[k] = d.get(k, 0) + 1`: bump the first entry with key `k`, or
append `(k, 1)` when the key is absent. -/
def dictIncr : CountMap → String → CountMap
  | [], k => [(k, 1)]
  | (k', v) :: rest, k =>
      if k' = k then (k', v + 1) :: rest else (k', v) :: dictIncr rest k

/-- Sum of a count map's values (`sum(d.values())`). -/
def dictValuesSum (d : CountMap) : ℕ := (d.map (fun p => p.2)).sum

/-- The sprint timeline progress structure returned by
`_calculate_sprint_progress` (its four numeric entries). -/
structure SprintProgress where
  days_elapsed : ℤ
  days_remaining : ℤ
  days_total : ℤ
  progress_pct : ℚ
  deriving DecidableEq

/-- The all-zero progress structure. -/
def zeroProgress : SprintProgress := ⟨0, 0, 0, 0⟩

/-- Iteration metadata: the `attributes.startDate` / `attributes.finishDate`
strings.  `none` models a missing (or empty) string, `some none` a string
`datetime.fromisoformat` fails to parse, `some (some d)` one parsing to day
number `d`. -/
structure IterationAttrs where
  startDate : Option (Option ℤ)
  finishDate : Option (Option ℤ)

/-- `SprintAnalytics._calculate_sprint_progress`, with the wall-clock read
`datetime.now(start_date.tzinfo)` passed in as `today`.  An iteration of
`none` models a falsy `self.iteration_data`.  The `try/except` around the
parses is the `some none` branches.  (The success branch of the source also
carries two formatted date strings; only the four numeric entries are
modelled, as only they are ever read back.) -/
def calculate_sprint_progress (iteration : Option IterationAttrs) (today : ℤ) :
    SprintProgress :=
  match iteration with
  | none => zeroProgress
  | some attrs =>
    match attrs.startDate, attrs.finishDate with
    | some sp, some ep =>
      match sp, ep with
      | some s, some e =>
          let days_total : ℤ := e - s
          let days_elapsed : ℤ := max 0 (today - s)
          let days_remaining : ℤ := max 0 (e - today)
          let progress_pct : ℚ :=
            if days_total > 0 then (days_elapsed : ℚ) / (days_total : ℚ) * 100 else 0
          ⟨days_elapsed, days_remaining, days_total, pyRound1 progress_pct⟩
      | _, _ => zeroProgress
    | _, _ => zeroProgress

/-- `SprintAnalytics._calculate_health_status`. -/
def calculate_health_status (completion_rate : ℚ) (sprint_progress : SprintProgress) :
    String :=
  let progress_pct := sprint_progress.progress_pct
  if progress_pct = 0 then "unknown"
  else if completion_rate ≥ progress_pct then "green"
  else if completion_rate ≥ progress_pct * (7 / 10) then "yellow"
  else "red"

/-- The metrics structure returned by `SprintAnalytics.calculate_metrics`. -/
structure SprintMetrics where
  total_items : ℕ
  closed_items : ℕ
  total_points : ℚ
  completed_points : ℚ
  remaining_points : ℚ
  completion_rate : ℚ
  item_completion_rate : ℚ
  state_counts : CountMap
  type_counts : CountMap
  assignee_counts : CountMap
  sprint_progress : SprintProgress
  health_status : String
  deriving DecidableEq

/-- `SprintAnalytics._empty_metrics`. -/
def empty_metrics : SprintMetrics :=
  { total_items := 0, closed_items := 0, total_points := 0, completed_points := 0,
    remaining_points := 0, completion_rate := 0, item_completion_rate := 0,
    state_counts := [], type_counts := [], assignee_counts := [],
    sprint_progress := ⟨0, 0, 0, 0⟩, health_status := "unknown" }

/-- The accumulators of the per-item loop of `calculate_metrics`. -/
structure MetricsAcc where
  total_points : ℚ
  completed_points : ℚ
  state_counts : CountMap
  type_counts : CountMap
  assignee_counts : CountMap

/-- Initial value of `state_counts` (line 42). -/
def initStateCounts : CountMap :=
  [("New", 0), ("Active", 0), ("Resolved", 0), ("Closed", 0), ("Other", 0)]

/-- One iteration of the `for wi in self.work_items` loop of
`calculate_metrics` (lines 47-75). -/
def processItem (acc : MetricsAcc) (wi : WorkItem) : MetricsAcc :=
  let points := pointsOf wi
  let state := stateOf wi
  { total_points := acc.total_points + points,
    completed_points :=
      acc.completed_points + (if isDoneForPoints state then points else 0),
    state_counts :=
      if dictContains acc.state_counts state then dictIncr acc.state_counts state
      else dictIncr acc.state_counts "Other",
    type_counts := dictIncr acc.type_counts (typeOf wi),
    assignee_counts := dictIncr acc.assignee_counts (assigneeName wi) }

/-- `SprintAnalytics.calculate_metrics`, with the iteration metadata and the
wall clock made explicit. -/
def calculate_metrics (work_items : List WorkItem) (iteration : Option IterationAttrs)
    (today : ℤ) : SprintMetrics :=
  let total_items := work_items.length
  if total_items = 0 then empty_metrics
  else
    let acc := work_items.foldl processItem
      ⟨0, 0, initStateCounts, [], []⟩
    let completion_rate : ℚ :=
      if acc.total_points > 0 then acc.completed_points / acc.total_points * 100 else 0
    let closed_items :=
      dictGetD acc.state_counts "Closed" 0 + dictGetD acc.state_counts "Resolved" 0
    let item_completion_rate : ℚ :=
      if total_items > 0 then (closed_items : ℚ) / (total_items : ℚ) * 100 else 0
    let sprint_progress := calculate_sprint_progress iteration today
    { total_items := total_items, closed_items := closed_items,
      total_points := acc.total_points, completed_points := acc.completed_points,
      remaining_points := acc.total_points - acc.completed_points,
      completion_rate := pyRound1 completion_rate,
      item_completion_rate := pyRound1 item_completion_rate,
      state_counts := acc.state_counts, type_counts := acc.type_counts,
      assignee_counts := acc.assignee_counts,
      sprint_progress := sprint_progress,
      health_status := calculate_health_status completion_rate sprint_progress }

/-- The `ideal_burndown` loop of `generate_burndown_data` (lines 198-201):
`max(0, total_points * (1 - day / days_total))` for `day` in
`range(days_total + 1)`.  A negative `days_total` gives the empty list, as
Python `range` does. -/
def idealBurndown (total_points : ℚ) (days_total : ℤ) : List ℚ :=
  (List.range (days_total + 1).toNat).map fun (day : ℕ) =>
    max 0 (total_points * (1 - (day : ℚ) / (days_total : ℚ)))

/-- The `actual_burndown` construction of `generate_burndown_data`
(lines 204-221): interpolation over `range(days_elapsed + 1)`, then, when
`0 < days_elapsed < days_total`, extrapolation at velocity
`completed_points / days_elapsed` over `range(days_elapsed + 1, days_total + 1)`. -/
def actualBurndown (total_points completed_points : ℚ)
    (days_total days_elapsed : ℤ) : List ℚ :=
  let base := (List.range (days_elapsed + 1).toNat).map fun (day : ℕ) =>
    if days_elapsed > 0 then
      max 0 (total_points - completed_points * ((day : ℚ) / (days_elapsed : ℚ)))
    else total_points
  if days_elapsed > 0 ∧ days_elapsed < days_total then
    base ++ (List.range' (days_elapsed + 1).toNat (days_total - days_elapsed).toNat).map
      (fun (day : ℕ) =>
        max 0 (total_points - completed_points / (days_elapsed : ℚ) * (day : ℚ)))
  else base

/-- `SprintAnalytics.generate_burndown_data`.  (`sprint_progress` always
carries a `days_total` key, so the `.get('days_total', 10)` defaults of
lines 191-192 never fire.) -/
def generate_burndown_data (work_items : List WorkItem)
    (iteration : Option IterationAttrs) (today : ℤ) : List ℚ × List ℚ :=
  let metrics := calculate_metrics work_items iteration today
  let days_total := metrics.sprint_progress.days_total
  let days_elapsed := metrics.sprint_progress.days_elapsed
  if days_total = 0 then ([], [])
  else
    (idealBurndown metrics.total_points days_total,
     actualBurndown metrics.total_points metrics.completed_points days_total days_elapsed)

/-- `MultiSprintAnalytics._calculate_trend`.  (`velocities[0]` on the
`len <= 3` branch is only reached with at least two elements; `headD 0`
agrees with it there.) -/
def calculate_trend (velocities : List ℚ) : String :=
  if velocities.length < 2 then "stable"
  else
    let recent := velocities.drop (velocities.length - 3)
    let recent_avg := recent.sum / (recent.length : ℚ)
    let older_avg :=
      if velocities.length > 3 then
        (velocities.take (velocities.length - 3)).sum /
          ((velocities.take (velocities.length - 3)).length : ℚ)
      else velocities.headD 0
    if recent_avg > older_avg * (11 / 10) then "increasing"
    else if recent_avg < older_avg * (9 / 10) then "decreasing"
    else "stable"

/-- One entry of `MultiSprintAnalytics.sprints_data`: a dict with
`sprint_info` (used both for its `name` and as the iteration metadata) and
`work_items`. -/
structure SprintData where
  name : Option String
  iteration : Option IterationAttrs
  work_items : List WorkItem

/-- The result of `calculate_velocity_trends`. -/
structure VelocityTrends where
  sprint_names : List String
  velocities : List ℚ
  average_velocity : ℚ
  trend : String

/-- `MultiSprintAnalytics.calculate_velocity_trends`. -/
def calculate_velocity_trends (sprints : List SprintData) (today : ℤ) :
    VelocityTrends :=
  let velocities := sprints.map fun s =>
    (calculate_metrics s.work_items s.iteration today).completed_points
  let names := sprints.map fun s => s.name.getD "Unknown"
  let avg : ℚ :=
    if velocities.isEmpty then 0 else velocities.sum / (velocities.length : ℚ)
  ⟨names, velocities, pyRound1 avg, calculate_trend velocities⟩

/-- Model of Python float formatting with one decimal place, applied to a
rational already at the relevant precision. -/
def fmt1 (x : ℚ) : String :=
  let k := roundHalfEven (x * 10)
  (if k < 0 then "-" else "") ++ toString (k.natAbs / 10) ++ "." ++ toString (k.natAbs % 10)

/-- The result of `predict_completion`.  `days_needed = none` models the
Python float `inf`. -/
structure Prediction where
  days_needed : Option ℚ
  can_complete : Bool
  confidence : String
  message : String
  deriving DecidableEq

/-- `MultiSprintAnalytics.predict_completion`. -/
def predict_completion (sprints : List SprintData) (today : ℤ)
    (remaining_points current_velocity : ℚ) : Prediction :=
  if current_velocity = 0 then
    ⟨none, false, "low", "No velocity detected yet"⟩
  else
    let days_needed := remaining_points / current_velocity
    let avg_velocity := (calculate_velocity_trends sprints today).average_velocity
    let velocity_variance :=
      if avg_velocity > 0 then |current_velocity - avg_velocity| / avg_velocity else 1
    let confidence :=
      if velocity_variance < 2 / 10 then "high"
      else if velocity_variance < 4 / 10 then "medium"
      else "low"
    ⟨some (pyRound1 days_needed), decide (days_needed ≤ 10), confidence,
      "Estimated " ++ fmt1 days_needed ++ " days to complete remaining work"⟩

lemma dictValuesSum_nil : dictValuesSum [] = 0 := rfl

lemma dictValuesSum_cons (p : String × ℕ) (rest : CountMap) :
    dictValuesSum (p :: rest) = p.2 + dictValuesSum rest := by
  simp [dictValuesSum]

lemma dictValuesSum_dictIncr (d : CountMap) (k : String) :
    dictValuesSum (dictIncr d k) = dictValuesSum d + 1 := by
  induction d with
  | nil => simp [dictIncr, dictValuesSum]
  | cons p rest ih =>
    obtain ⟨k0, v⟩ := p
    by_cases h : k0 = k
    · simp only [dictIncr, if_pos h, dictValuesSum_cons]
      omega
    · simp only [dictIncr, if_neg h, dictValuesSum_cons, ih]
      omega

lemma dictGetD_dictIncr (d : CountMap) (k k' : String) :
    dictGetD (dictIncr d k) k' 0 = dictGetD d k' 0 + (if k' = k then 1 else 0) := by
  induction d with
  | nil =>
    by_cases h : k = k'
    · subst h
      simp [dictIncr, dictGetD, List.find?]
    · have h2 : ¬k' = k := fun hh => h hh.symm
      simp [dictIncr, dictGetD, List.find?, h, h2]
  | cons p rest ih =>
    obtain ⟨k0, v⟩ := p
    by_cases h0 : k0 = k
    · subst h0
      by_cases h1 : k0 = k'
      · subst h1
        simp [dictIncr, dictGetD, List.find?]
      · have h2 : ¬k' = k0 := fun hh => h1 hh.symm
        simp [dictIncr, dictGetD, List.find?, h1, h2]
    · simp only [dictIncr, if_neg h0]
      by_cases h1 : k0 = k'
      · subst h1
        have h2 : ¬k0 = k := h0
        simp [dictGetD, List.find?, h2]
      · have hstep : ∀ (w : ℕ) (rest2 : CountMap),
            dictGetD ((k0, w) :: rest2) k' 0 = dictGetD rest2 k' 0 := by
          intro w rest2
          simp [dictGetD, List.find?, h1]
        rw [hstep, hstep, ih]

lemma foldl_processItem_total (ws : List WorkItem) (acc : MetricsAcc) :
    (ws.foldl processItem acc).total_points
      = acc.total_points + (ws.map pointsOf).sum := by
  induction ws generalizing acc with
  | nil => simp
  | cons w rest ih =>
    rw [List.foldl_cons, ih]
    simp only [processItem, List.map_cons, List.sum_cons]
    ring

lemma foldl_processItem_completed (ws : List WorkItem) (acc : MetricsAcc) :
    (ws.foldl processItem acc).completed_points
      = acc.completed_points
        + ((ws.filter fun wi => isDoneForPoints (stateOf wi)).map pointsOf).sum := by
  induction ws generalizing acc with
  | nil => simp
  | cons w rest ih =>
    rw [List.foldl_cons, ih]
    simp only [processItem, List.filter_cons]
    by_cases h : isDoneForPoints (stateOf w)
    · simp [h]
      ring
    · simp [h]

lemma foldl_processItem_stateSum (ws : List WorkItem) (acc : MetricsAcc) :
    dictValuesSum (ws.foldl processItem acc).state_counts
      = dictValuesSum acc.state_counts + ws.length := by
  induction ws generalizing acc with
  | nil => simp
  | cons w rest ih =>
    rw [List.foldl_cons, ih]
    simp only [processItem]
    by_cases h : dictContains acc.state_counts (stateOf w)
    · simp [h, dictValuesSum_dictIncr]
      omega
    · simp [h, dictValuesSum_dictIncr]
      omega

lemma foldl_processItem_typeSum (ws : List WorkItem) (acc : MetricsAcc) :
    dictValuesSum (ws.foldl processItem acc).type_counts
      = dictValuesSum acc.type_counts + ws.length := by
  induction ws generalizing acc with
  | nil => simp
  | cons w rest ih =>
    rw [List.foldl_cons, ih]
    simp only [processItem, dictValuesSum_dictIncr, List.length_cons]
    omega

lemma foldl_processItem_assigneeSum (ws : List WorkItem) (acc : MetricsAcc) :
    dictValuesSum (ws.foldl processItem acc).assignee_counts
      = dictValuesSum acc.assignee_counts + ws.length := by
  induction ws generalizing acc with
  | nil => simp
  | cons w rest ih =>
    rw [List.foldl_cons, ih]
    simp only [processItem, dictValuesSum_dictIncr, List.length_cons]
    omega

lemma dict_closed_resolved_dictIncr (d : CountMap) (k : String)
    (h : dictGetD d "Closed" 0 + dictGetD d "Resolved" 0 ≤ dictValuesSum d) :
    dictGetD (dictIncr d k) "Closed" 0 + dictGetD (dictIncr d k) "Resolved" 0
      ≤ dictValuesSum (dictIncr d k) := by
  rw [dictGetD_dictIncr, dictGetD_dictIncr, dictValuesSum_dictIncr]
  by_cases h1 : ("Closed" : String) = k
  · by_cases h2 : ("Resolved" : String) = k
    · exact absurd (h1.trans h2.symm) (by decide)
    · simp only [if_pos h1, if_neg h2]
      omega
  · by_cases h2 : ("Resolved" : String) = k
    · simp only [if_neg h1, if_pos h2]
      omega
    · simp only [if_neg h1, if_neg h2]
      omega

lemma foldl_processItem_closed_le (ws : List WorkItem) (acc : MetricsAcc)
    (h : dictGetD acc.state_counts "Closed" 0 + dictGetD acc.state_counts "Resolved" 0
      ≤ dictValuesSum acc.state_counts) :
    dictGetD (ws.foldl processItem acc).state_counts "Closed" 0
        + dictGetD (ws.foldl processItem acc).state_counts "Resolved" 0
      ≤ dictValuesSum (ws.foldl processItem acc).state_counts := by
  induction ws generalizing acc with
  | nil => simpa using h
  | cons w rest ih =>
    rw [List.foldl_cons]
    apply ih
    simp only [processItem]
    by_cases hc : dictContains acc.state_counts (stateOf w)
    · simp only [hc, if_true]
      exact dict_closed_resolved_dictIncr _ _ h
    · simp only [hc, Bool.false_eq_true, if_false]
      exact dict_closed_resolved_dictIncr _ _ h

lemma foldl_processItem_completed_le (ws : List WorkItem) (acc : MetricsAcc)
    (hp : ∀ wi ∈ ws, 0 ≤ pointsOf wi)
    (h : acc.completed_points ≤ acc.total_points) :
    (ws.foldl processItem acc).completed_points
      ≤ (ws.foldl processItem acc).total_points := by
  induction ws generalizing acc with
  | nil => simpa using h
  | cons w rest ih =>
    rw [List.foldl_cons]
    apply ih
    · intro wi hwi
      exact hp wi (List.mem_cons_of_mem _ hwi)
    · have hw : 0 ≤ pointsOf w := hp w (List.mem_cons_self _ _)
      simp only [processItem]
      by_cases hd : isDoneForPoints (stateOf w)
      · simp only [hd, if_true]
        linarith
      · simp only [hd, Bool.false_eq_true, if_false]
        linarith

lemma calculate_metrics_ne_nil (ws : List WorkItem) (it : Option IterationAttrs)
    (t : ℤ) (h : ws ≠ []) :
    calculate_metrics ws it t =
      (let acc := ws.foldl processItem ⟨0, 0, initStateCounts, [], []⟩
       let completion_rate : ℚ :=
         if acc.total_points > 0 then acc.completed_points / acc.total_points * 100 else 0
       let closed_items :=
         dictGetD acc.state_counts "Closed" 0 + dictGetD acc.state_counts "Resolved" 0
       let item_completion_rate : ℚ :=
         if ws.length > 0 then (closed_items : ℚ) / (ws.length : ℚ) * 100 else 0
       let sprint_progress := calculate_sprint_progress it t
       { total_items := ws.length, closed_items := closed_items,
         total_points := acc.total_points, completed_points := acc.completed_points,
         remaining_points := acc.total_points - acc.completed_points,
         completion_rate := pyRound1 completion_rate,
         item_completion_rate := pyRound1 item_completion_rate,
         state_counts := acc.state_counts, type_counts := acc.type_counts,
         assignee_counts := acc.assignee_counts,
         sprint_progress := sprint_progress,
         health_status := calculate_health_status completion_rate sprint_progress }) := by
  rw [calculate_metrics, if_neg (by simpa using h)]

lemma calculate_sprint_progress_days_elapsed_nonneg
    (it : Option IterationAttrs) (t : ℤ) :
    0 ≤ (calculate_sprint_progress it t).days_elapsed := by
  rcases it with _ | ⟨sd, ed⟩
  · simp [calculate_sprint_progress, zeroProgress]
  · rcases sd with _ | sd2
    · simp [calculate_sprint_progress, zeroProgress]
    · rcases ed with _ | ed2
      · simp [calculate_sprint_progress, zeroProgress]
      · rcases sd2 with _ | s
        · simp [calculate_sprint_progress, zeroProgress]
        · rcases ed2 with _ | e
          · simp [calculate_sprint_progress, zeroProgress]
          · have hval :
              (calculate_sprint_progress
                (some ⟨some (some s), some (some e)⟩) t).days_elapsed
                = max 0 (t - s) := rfl
            rw [hval]
            exact le_max_left 0 _

lemma metrics_sprint_progress_eq (ws : List WorkItem) (it : Option IterationAttrs)
    (t : ℤ) :
    (calculate_metrics ws it t).sprint_progress = calculate_sprint_progress it t
      ∨ (calculate_metrics ws it t).sprint_progress = zeroProgress := by
  rcases ws with _ | ⟨w, rest⟩
  · right
    rfl
  · left
    rw [calculate_metrics_ne_nil _ it t (by simp)]

lemma metrics_days_elapsed_nonneg (ws : List WorkItem) (it : Option IterationAttrs)
    (t : ℤ) :
    0 ≤ (calculate_metrics ws it t).sprint_progress.days_elapsed := by
  rcases metrics_sprint_progress_eq ws it t with h | h <;> rw [h]
  · exact calculate_sprint_progress_days_elapsed_nonneg it t
  · simp [zeroProgress]

lemma idealBurndown_length (tp : ℚ) (dt : ℤ) :
    (idealBurndown tp dt).length = (dt + 1).toNat := by
  rw [idealBurndown, List.length_map, List.length_range]

lemma idealBurndown_getD (tp : ℚ) (dt : ℤ) (d : ℕ) (hd : d < (dt + 1).toNat) :
    (idealBurndown tp dt).getD d 0 = max 0 (tp * (1 - (d : ℚ) / (dt : ℚ))) := by
  have hlen : d < (idealBurndown tp dt).length := by
    rw [idealBurndown_length]
    exact hd
  rw [List.getD_eq_getElem _ 0 hlen]
  simp only [idealBurndown, List.getElem_map, List.getElem_range]

lemma actualBurndown_length (tp cp : ℚ) (dt de : ℤ) :
    (actualBurndown tp cp dt de).length =
      if de > 0 ∧ de < dt then (de + 1).toNat + (dt - de).toNat
      else (de + 1).toNat := by
  by_cases h : de > 0 ∧ de < dt
  · rw [if_pos h]
    simp only [actualBurndown]
    rw [if_pos h, List.length_append, List.length_map, List.length_map,
      List.length_range, List.length_range']
  · rw [if_neg h]
    simp only [actualBurndown]
    rw [if_neg h, List.length_map, List.length_range]

/-- C1: Health-status classification is a total, deterministic function of
completion_rate and progress_pct: it returns unknown when progress_pct is 0
regardless of completion_rate; green when completion_rate is at least
progress_pct; yellow when completion_rate is below progress_pct but at least
progress_pct * 0.7; red otherwise; and at progress_pct 50 the rates 50, 35
and 34.9 classify as green, yellow and red respectively. -/
theorem health_status_spec (cr : ℚ) (sp : SprintProgress) :
    (sp.progress_pct = 0 → calculate_health_status cr sp = "unknown") ∧
    (sp.progress_pct ≠ 0 → cr ≥ sp.progress_pct →
      calculate_health_status cr sp = "green") ∧
    (sp.progress_pct ≠ 0 → cr < sp.progress_pct → cr ≥ sp.progress_pct * (7 / 10) →
      calculate_health_status cr sp = "yellow") ∧
    (sp.progress_pct ≠ 0 → cr < sp.progress_pct → cr < sp.progress_pct * (7 / 10) →
      calculate_health_status cr sp = "red") ∧
    calculate_health_status 50 ⟨0, 0, 0, 50⟩ = "green" ∧
    calculate_health_status 35 ⟨0, 0, 0, 50⟩ = "yellow" ∧
    calculate_health_status (349 / 10) ⟨0, 0, 0, 50⟩ = "red" ∧
    (∀ cr2 : ℚ, calculate_health_status cr2 ⟨0, 0, 0, 0⟩ = "unknown") := by
  refine ⟨?_, ?_, ?_, ?_, ?_, ?_, ?_, ?_⟩
  · intro h
    simp only [calculate_health_status]
    rw [if_pos h]
  · intro h hge
    simp only [calculate_health_status]
    rw [if_neg h, if_pos hge]
  · intro h hlt hge
    simp only [calculate_health_status]
    rw [if_neg h, if_neg (not_le.mpr hlt), if_pos hge]
  · intro h hlt hlt2
    simp only [calculate_health_status]
    rw [if_neg h, if_neg (not_le.mpr hlt), if_neg (not_le.mpr hlt2)]
  · norm_num [calculate_health_status]
  · norm_num [calculate_health_status]
  · norm_num [calculate_health_status]
  · intro cr2
    norm_num [calculate_health_status]

/-- Witness for C1 at the yellow boundary: progress 50 and completion 35. -/
theorem health_status_spec_witness :
    calculate_health_status 35 ⟨0, 0, 0, 50⟩ = "yellow" :=
  (health_status_spec 35 ⟨0, 0, 0, 50⟩).2.2.1 (by norm_num) (by norm_num) (by norm_num)

/-- C5: calculate_metrics on the empty collection returns the canonical
zero-valued metrics, with zero counts, points and rates, empty count maps,
all-zero sprint progress and health status unknown; being a total
function of the embedding, it cannot raise. -/
theorem calculate_metrics_empty_spec (it : Option IterationAttrs) (t : ℤ) :
    calculate_metrics [] it t = empty_metrics ∧
    empty_metrics.total_items = 0 ∧ empty_metrics.closed_items = 0 ∧
    empty_metrics.total_points = 0 ∧ empty_metrics.completed_points = 0 ∧
    empty_metrics.remaining_points = 0 ∧ empty_metrics.completion_rate = 0 ∧
    empty_metrics.item_completion_rate = 0 ∧ empty_metrics.state_counts = [] ∧
    empty_metrics.type_counts = [] ∧ empty_metrics.assignee_counts = [] ∧
    empty_metrics.sprint_progress = ⟨0, 0, 0, 0⟩ ∧
    empty_metrics.health_status = "unknown" :=
  ⟨rfl, rfl, rfl, rfl, rfl, rfl, rfl, rfl, rfl, rfl, rfl, rfl, rfl⟩

/-- C3: completed_points is exactly the sum of story points over the
records whose state lowercases into the set containing closed, done and
resolved; every record contributes its points to total_points; and a state
lowercasing to completed is excluded from the engine's point-completion
test even though the top-level UI done-predicate accepts it. -/
theorem completed_points_spec :
    (∀ (ws : List WorkItem) (it : Option IterationAttrs) (t : ℤ),
      (calculate_metrics ws it t).completed_points
        = ((ws.filter fun wi => isDoneForPoints (stateOf wi)).map pointsOf).sum) ∧
    (∀ (ws : List WorkItem) (it : Option IterationAttrs) (t : ℤ),
      (calculate_metrics ws it t).total_points = (ws.map pointsOf).sum) ∧
    (∀ s : String, pyLower s = "completed" →
      isDoneForPoints s = false ∧ is_closed s = true) := by
  refine ⟨?_, ?_, ?_⟩
  · intro ws it t
    rcases ws with _ | ⟨w, rest⟩
    · rfl
    · have hproj : (calculate_metrics (w :: rest) it t).completed_points
          = ((w :: rest).foldl processItem ⟨0, 0, initStateCounts, [], []⟩).completed_points :=
        rfl
      rw [hproj, foldl_processItem_completed]
      simp
  · intro ws it t
    rcases ws with _ | ⟨w, rest⟩
    · rfl
    · have hproj : (calculate_metrics (w :: rest) it t).total_points
          = ((w :: rest).foldl processItem ⟨0, 0, initStateCounts, [], []⟩).total_points :=
        rfl
      rw [hproj, foldl_processItem_total]
      simp
  · intro s h
    constructor
    · rw [isDoneForPoints, h]
      decide
    · rw [is_closed, h]
      decide

/-- Witness for C3 at the state Completed. -/
theorem completed_points_spec_witness :
    isDoneForPoints "Completed" = false ∧ is_closed "Completed" = true :=
  completed_points_spec.2.2 "Completed" (by decide)

/-- C4: velocity trend is stable for fewer than two sprints; for two or
more, with recent_avg the mean of the last min(3, n) velocities and
older_avg the mean of all-but-last-3 (or the first velocity when n is at
most 3), it is increasing exactly when recent_avg exceeds older_avg * 1.1,
decreasing exactly when it is below older_avg * 0.9 (and not increasing),
and stable otherwise; the list [10,10,10,10,20,20,20] is increasing. -/
theorem velocity_trend_spec :
    (∀ v : List ℚ, v.length < 2 → calculate_trend v = "stable") ∧
    (∀ v : List ℚ, 2 ≤ v.length →
      (let recent := v.drop (v.length - 3)
       let recent_avg := recent.sum / (recent.length : ℚ)
       let older_avg :=
         if v.length > 3 then
           (v.take (v.length - 3)).sum / ((v.take (v.length - 3)).length : ℚ)
         else v.headD 0
       (calculate_trend v = "increasing" ↔ recent_avg > older_avg * (11 / 10)) ∧
       (calculate_trend v = "decreasing" ↔
         ¬recent_avg > older_avg * (11 / 10) ∧ recent_avg < older_avg * (9 / 10)) ∧
       (calculate_trend v = "stable" ↔
         ¬recent_avg > older_avg * (11 / 10) ∧ ¬recent_avg < older_avg * (9 / 10)))) ∧
    calculate_trend [10, 10, 10, 10, 20, 20, 20] = "increasing" := by
  refine ⟨?_, ?_, ?_⟩
  · intro v h
    rw [calculate_trend, if_pos h]
  · intro v h
    have key : ∀ r o : ℚ,
        (((if r > o * (11 / 10) then "increasing"
           else if r < o * (9 / 10) then "decreasing"
           else ("stable" : String)) = "increasing") ↔ r > o * (11 / 10)) ∧
        (((if r > o * (11 / 10) then "increasing"
           else if r < o * (9 / 10) then "decreasing"
           else ("stable" : String)) = "decreasing") ↔
          ¬r > o * (11 / 10) ∧ r < o * (9 / 10)) ∧
        (((if r > o * (11 / 10) then "increasing"
           else if r < o * (9 / 10) then "decreasing"
           else ("stable" : String)) = "stable") ↔
          ¬r > o * (11 / 10) ∧ ¬r < o * (9 / 10)) := by
      intro r o
      split_ifs with h1 h2
      · exact ⟨iff_of_true rfl h1,
          iff_of_false (by decide) (fun hc => hc.1 h1),
          iff_of_false (by decide) (fun hc => hc.1 h1)⟩
      · exact ⟨iff_of_false (by decide) h1,
          iff_of_true rfl ⟨h1, h2⟩,
          iff_of_false (by decide) (fun hc => hc.2 h2)⟩
      · exact ⟨iff_of_false (by decide) h1,
          iff_of_false (by decide) (fun hc => h2 hc.2),
          iff_of_true rfl ⟨h1, h2⟩⟩
    simp only [calculate_trend]
    rw [if_neg (not_lt.mpr h)]
    exact key _ _
  · have hdrop : ([10, 10, 10, 10, 20, 20, 20] : List ℚ).drop 4 = [20, 20, 20] := rfl
    have htake : ([10, 10, 10, 10, 20, 20, 20] : List ℚ).take 4 = [10, 10, 10, 10] := rfl
    have hlen : ([10, 10, 10, 10, 20, 20, 20] : List ℚ).length = 7 := rfl
    simp only [calculate_trend, hlen]
    norm_num [hdrop, htake]

/-- Witness for C4 on a one-element velocity list. -/
theorem velocity_trend_spec_witness : calculate_trend [5] = "stable" :=
  velocity_trend_spec.1 [5] (by simp)

/-- C10: for a non-empty work item collection each of the three count maps
partitions the input: state_counts, type_counts and assignee_counts each
have values summing to total_items. -/
theorem count_maps_partition (ws : List WorkItem) (it : Option IterationAttrs)
    (t : ℤ) (h : ws ≠ []) :
    dictValuesSum (calculate_metrics ws it t).state_counts
        = (calculate_metrics ws it t).total_items ∧
    dictValuesSum (calculate_metrics ws it t).type_counts
        = (calculate_metrics ws it t).total_items ∧
    dictValuesSum (calculate_metrics ws it t).assignee_counts
        = (calculate_metrics ws it t).total_items := by
  rcases ws with _ | ⟨w, rest⟩
  · exact absurd rfl h
  · have htot : (calculate_metrics (w :: rest) it t).total_items
        = (w :: rest).length := rfl
    refine ⟨?_, ?_, ?_⟩
    · have hproj : (calculate_metrics (w :: rest) it t).state_counts
          = ((w :: rest).foldl processItem ⟨0, 0, initStateCounts, [], []⟩).state_counts :=
        rfl
      have h0 : dictValuesSum initStateCounts = 0 := rfl
      rw [hproj, htot, foldl_processItem_stateSum, h0]
      exact Nat.zero_add _
    · have hproj : (calculate_metrics (w :: rest) it t).type_counts
          = ((w :: rest).foldl processItem ⟨0, 0, initStateCounts, [], []⟩).type_counts :=
        rfl
      rw [hproj, htot, foldl_processItem_typeSum]
      exact Nat.zero_add _
    · have hproj : (calculate_metrics (w :: rest) it t).assignee_counts
          = ((w :: rest).foldl processItem ⟨0, 0, initStateCounts, [], []⟩).assignee_counts :=
        rfl
      rw [hproj, htot, foldl_processItem_assigneeSum]
      exact Nat.zero_add _

/-- Witness for C10 on a two-item collection. -/
theorem count_maps_partition_witness :
    dictValuesSum (calculate_metrics
        [⟨some 5, some "Closed", some "Task", some (some "A")⟩,
         ⟨some 3, some "Active", some "Bug", none⟩] none 0).state_counts
      = (calculate_metrics
        [⟨some 5, some "Closed", some "Task", some (some "A")⟩,
         ⟨some 3, some "Active", some "Bug", none⟩] none 0).total_items :=
  (count_maps_partition _ none 0 (by simp)).1

/-- C8: for a non-empty collection of records with non-negative story
points (absent modelled as 0), completed_points never exceeds total_points
and closed_items never exceeds total_items. -/
theorem metrics_le_invariants (ws : List WorkItem) (it : Option IterationAttrs)
    (t : ℤ) (hne : ws ≠ []) (hp : ∀ wi ∈ ws, 0 ≤ pointsOf wi) :
    (calculate_metrics ws it t).completed_points
        ≤ (calculate_metrics ws it t).total_points ∧
    (calculate_metrics ws it t).closed_items
        ≤ (calculate_metrics ws it t).total_items := by
  rcases ws with _ | ⟨w, rest⟩
  · exact absurd rfl hne
  · constructor
    · have h1 : (calculate_metrics (w :: rest) it t).completed_points
          = ((w :: rest).foldl processItem ⟨0, 0, initStateCounts, [], []⟩).completed_points :=
        rfl
      have h2 : (calculate_metrics (w :: rest) it t).total_points
          = ((w :: rest).foldl processItem ⟨0, 0, initStateCounts, [], []⟩).total_points :=
        rfl
      rw [h1, h2]
      exact foldl_processItem_completed_le _ _ hp le_rfl
    · have h3 : (calculate_metrics (w :: rest) it t).closed_items
          = dictGetD ((w :: rest).foldl processItem
              ⟨0, 0, initStateCounts, [], []⟩).state_counts "Closed" 0
            + dictGetD ((w :: rest).foldl processItem
              ⟨0, 0, initStateCounts, [], []⟩).state_counts "Resolved" 0 := rfl
      have h4 : (calculate_metrics (w :: rest) it t).total_items
          = (w :: rest).length := rfl
      have h5 := foldl_processItem_closed_le (w :: rest)
        ⟨0, 0, initStateCounts, [], []⟩ (by decide)
      have h6 : dictValuesSum ((w :: rest).foldl processItem
          ⟨0, 0, initStateCounts, [], []⟩).state_counts = (w :: rest).length := by
        have h6a := foldl_processItem_stateSum (w :: rest)
          ⟨0, 0, initStateCounts, [], []⟩
        have h7 : dictValuesSum initStateCounts = 0 := rfl
        simp only [h7] at h6a
        omega
      rw [h3, h4]
      omega

/-- Witness for C8 on a two-item collection. -/
theorem metrics_le_invariants_witness :
    (calculate_metrics
        [⟨some 5, some "Closed", some "Task", some (some "A")⟩,
         ⟨some 3, some "Active", some "Bug", none⟩] none 0).completed_points
      ≤ (calculate_metrics
        [⟨some 5, some "Closed", some "Task", some (some "A")⟩,
         ⟨some 3, some "Active", some "Bug", none⟩] none 0).total_points :=
  (metrics_le_invariants _ none 0 (by simp)
    (by
      intro wi hwi
      simp only [List.mem_cons, List.not_mem_nil, or_false] at hwi
      rcases hwi with h | h <;> rw [h] <;> norm_num [pointsOf])).1

/-- C7: predict_completion with zero velocity returns infinite days (modelled
as none), can_complete false, low confidence and the no-velocity message,
without any division fault; with nonzero velocity can_complete holds exactly
when remaining_points / current_velocity is at most the fixed constant 10,
whatever the sprint data (hence independent of any iteration length); and
predict_completion 0 5 yields days_needed 0 and can_complete true. -/
theorem predict_completion_spec (sprints : List SprintData) (t : ℤ) (rp cv : ℚ) :
    predict_completion sprints t rp 0 = ⟨none, false, "low", "No velocity detected yet"⟩ ∧
    (cv ≠ 0 → ((predict_completion sprints t rp cv).can_complete = true ↔ rp / cv ≤ 10)) ∧
    (predict_completion sprints t 0 5).days_needed = some 0 ∧
    (predict_completion sprints t 0 5).can_complete = true := by
  refine ⟨?_, ?_, ?_, ?_⟩
  · rw [predict_completion, if_pos rfl]
  · intro h
    simp only [predict_completion]
    rw [if_neg h]
    exact decide_eq_true_iff
  · have h5 : (5 : ℚ) ≠ 0 := by norm_num
    simp only [predict_completion]
    rw [if_neg h5]
    show some (pyRound1 (0 / 5)) = some 0
    norm_num [pyRound1, roundHalfEven, Int.fract, round_eq]
  · have h5 : (5 : ℚ) ≠ 0 := by norm_num
    simp only [predict_completion]
    rw [if_neg h5]
    show decide ((0 : ℚ) / 5 ≤ 10) = true
    simp only [decide_eq_true_eq]
    norm_num

/-- Witness for C7 with a nonzero velocity. -/
theorem predict_completion_spec_witness :
    (predict_completion [] 0 1 3).can_complete = true :=
  ((predict_completion_spec [] 0 1 3).2.1 (by norm_num)).mpr (by norm_num)

/-- Counterexample for C6: iteration dates out of order (start day 10,
finish day 5, today day 12) parse fine and yield days_elapsed 2,
days_remaining 0, days_total -5 and progress_pct 0, which is not the
all-zero progress structure. -/
theorem sprint_progress_counterexample :
    calculate_sprint_progress (some ⟨some (some 10), some (some 5)⟩) 12
        = ⟨2, 0, -5, 0⟩ ∧
    (⟨2, 0, -5, 0⟩ : SprintProgress) ≠ zeroProgress := by
  constructor
  · simp only [calculate_sprint_progress]
    norm_num [pyRound1, roundHalfEven, Int.fract, round_eq]
  · decide

/-- C6 amended: missing or unparsable iteration dates yield the all-zero
progress structure and the computation is total (never raises); but dates
present, parsable and out of order (start after finish) go through the
normal arithmetic: days_total = finish - start (negative), days_elapsed =
max 0 (today - start), days_remaining = max 0 (finish - today), with only
progress_pct degraded to 0. -/
theorem sprint_progress_amended (t s e : ℤ) :
    calculate_sprint_progress none t = zeroProgress ∧
    (∀ ed, calculate_sprint_progress (some ⟨none, ed⟩) t = zeroProgress) ∧
    (∀ sd, calculate_sprint_progress (some ⟨sd, none⟩) t = zeroProgress) ∧
    (∀ ed, calculate_sprint_progress (some ⟨some none, ed⟩) t = zeroProgress) ∧
    (∀ sd, calculate_sprint_progress (some ⟨sd, some none⟩) t = zeroProgress) ∧
    (e < s →
      calculate_sprint_progress (some ⟨some (some s), some (some e)⟩) t
        = ⟨max 0 (t - s), max 0 (e - t), e - s, 0⟩) := by
  refine ⟨rfl, ?_, ?_, ?_, ?_, ?_⟩
  · intro ed
    rcases ed with _ | ed2 <;> rfl
  · intro sd
    rcases sd with _ | (_ | s2) <;> rfl
  · intro ed
    rcases ed with _ | (_ | e2) <;> rfl
  · intro sd
    rcases sd with _ | (_ | s2) <;> rfl
  · intro h
    have hneg : ¬(e - s > 0) := by omega
    have hpr : pyRound1 0 = 0 := by
      norm_num [pyRound1, roundHalfEven, Int.fract, round_eq]
    simp only [calculate_sprint_progress]
    rw [if_neg hneg, hpr]

/-- Witness for C6 amended at start 7, finish 3, today 9. -/
theorem sprint_progress_amended_witness :
    calculate_sprint_progress (some ⟨some (some 7), some (some 3)⟩) 9
        = ⟨max 0 (9 - 7), max 0 (3 - 9), 3 - 7, 0⟩ :=
  (sprint_progress_amended 9 7 3).2.2.2.2.2 (by norm_num)

/-- C9: whenever the computed days_total is positive and total_points is
non-negative, the ideal burndown series returned by generate_burndown_data
has days_total + 1 points with ideal[d] = max(0, total_points *
(1 - d / days_total)); so it starts at total_points, ends at 0, and is
monotonically non-increasing. -/
theorem ideal_burndown_spec (ws : List WorkItem) (it : Option IterationAttrs)
    (t : ℤ)
    (hdt : 0 < (calculate_metrics ws it t).sprint_progress.days_total)
    (htp : 0 ≤ (calculate_metrics ws it t).total_points) :
    (generate_burndown_data ws it t).1.length
        = (calculate_metrics ws it t).sprint_progress.days_total.toNat + 1 ∧
    (∀ d : ℕ, d < (generate_burndown_data ws it t).1.length →
      (generate_burndown_data ws it t).1.getD d 0
        = max 0 ((calculate_metrics ws it t).total_points *
            (1 - (d : ℚ) /
              ((calculate_metrics ws it t).sprint_progress.days_total : ℚ)))) ∧
    (generate_burndown_data ws it t).1.getD 0 0
        = (calculate_metrics ws it t).total_points ∧
    (generate_burndown_data ws it t).1.getD
        (calculate_metrics ws it t).sprint_progress.days_total.toNat 0 = 0 ∧
    (∀ i j : ℕ, i ≤ j → j < (generate_burndown_data ws it t).1.length →
      (generate_burndown_data ws it t).1.getD j 0
        ≤ (generate_burndown_data ws it t).1.getD i 0) := by
  have hne : (calculate_metrics ws it t).sprint_progress.days_total ≠ 0 :=
    ne_of_gt hdt
  have hgen : (generate_burndown_data ws it t).1
      = idealBurndown (calculate_metrics ws it t).total_points
          (calculate_metrics ws it t).sprint_progress.days_total := by
    simp only [generate_burndown_data]
    rw [if_neg hne]
  have hlen : (generate_burndown_data ws it t).1.length
      = (calculate_metrics ws it t).sprint_progress.days_total.toNat + 1 := by
    rw [hgen, idealBurndown_length]
    omega
  have hdQ : (0 : ℚ) < ((calculate_metrics ws it t).sprint_progress.days_total : ℚ) := by
    exact_mod_cast hdt
  have hget : ∀ d : ℕ, d < (generate_burndown_data ws it t).1.length →
      (generate_burndown_data ws it t).1.getD d 0
        = max 0 ((calculate_metrics ws it t).total_points *
            (1 - (d : ℚ) /
              ((calculate_metrics ws it t).sprint_progress.days_total : ℚ))) := by
    intro d hd
    rw [hlen] at hd
    rw [hgen, idealBurndown_getD]
    omega
  refine ⟨hlen, hget, ?_, ?_, ?_⟩
  · rw [hget 0 (by omega)]
    norm_num
    exact htp
  · rw [hget _ (by omega)]
    have hcast :
        (((calculate_metrics ws it t).sprint_progress.days_total.toNat : ℕ) : ℚ)
          = ((calculate_metrics ws it t).sprint_progress.days_total : ℚ) := by
      have := Int.toNat_of_nonneg (le_of_lt hdt)
      exact_mod_cast this
    rw [hcast, div_self (ne_of_gt hdQ)]
    norm_num
  · intro i j hij hj
    have hi : i < (generate_burndown_data ws it t).1.length := lt_of_le_of_lt hij hj
    rw [hget j hj, hget i hi]
    apply max_le_max le_rfl
    apply mul_le_mul_of_nonneg_left _ htp
    apply sub_le_sub_left
    apply div_le_div_of_nonneg_right ?_ hdQ.le
    exact_mod_cast hij

/-- Witness for C9 on a one-item sprint of 10 points over 5 days. -/
theorem ideal_burndown_spec_witness :
    (generate_burndown_data [⟨some 10, some "Active", some "Task", none⟩]
        (some ⟨some (some 0), some (some 5)⟩) 3).1.getD 0 0
      = (calculate_metrics [⟨some 10, some "Active", some "Task", none⟩]
        (some ⟨some (some 0), some (some 5)⟩) 3).total_points :=
  (ideal_burndown_spec _ _ _ (by decide)
    (by
      have hproj : (calculate_metrics [⟨some 10, some "Active", some "Task", none⟩]
          (some ⟨some (some 0), some (some 5)⟩) 3).total_points
          = (([⟨some 10, some "Active", some "Task", none⟩] : List WorkItem).foldl
              processItem ⟨0, 0, initStateCounts, [], []⟩).total_points := rfl
      rw [hproj, foldl_processItem_total]
      norm_num [pointsOf])).2.2.1

/-- Counterexample for C2: for a sprint of 5 days whose today equals its
start date (days_elapsed 0), the ideal series has 6 points but the actual
series has a single point, so the two series do not have equal shape. -/
theorem burndown_shape_counterexample :
    (calculate_metrics [⟨some 10, some "Active", some "Task", none⟩]
        (some ⟨some (some 5), some (some 10)⟩) 5).sprint_progress.days_total = 5 ∧
    (generate_burndown_data [⟨some 10, some "Active", some "Task", none⟩]
        (some ⟨some (some 5), some (some 10)⟩) 5).1.length = 6 ∧
    (generate_burndown_data [⟨some 10, some "Active", some "Task", none⟩]
        (some ⟨some (some 5), some (some 10)⟩) 5).2.length = 1 ∧
    (generate_burndown_data [⟨some 10, some "Active", some "Task", none⟩]
        (some ⟨some (some 5), some (some 10)⟩) 5).1.length ≠
      (generate_burndown_data [⟨some 10, some "Active", some "Task", none⟩]
        (some ⟨some (some 5), some (some 10)⟩) 5).2.length := by
  have hdt : (calculate_metrics [⟨some 10, some "Active", some "Task", none⟩]
      (some ⟨some (some 5), some (some 10)⟩) 5).sprint_progress.days_total = 5 := rfl
  have hde : (calculate_metrics [⟨some 10, some "Active", some "Task", none⟩]
      (some ⟨some (some 5), some (some 10)⟩) 5).sprint_progress.days_elapsed = 0 := by
    show max 0 ((5 : ℤ) - 5) = 0
    norm_num
  have hne : (calculate_metrics [⟨some 10, some "Active", some "Task", none⟩]
      (some ⟨some (some 5), some (some 10)⟩) 5).sprint_progress.days_total ≠ 0 := by
    rw [hdt]
    norm_num
  have hgen : generate_burndown_data [⟨some 10, some "Active", some "Task", none⟩]
      (some ⟨some (some 5), some (some 10)⟩) 5
      = (idealBurndown
          (calculate_metrics [⟨some 10, some "Active", some "Task", none⟩]
            (some ⟨some (some 5), some (some 10)⟩) 5).total_points
          (calculate_metrics [⟨some 10, some "Active", some "Task", none⟩]
            (some ⟨some (some 5), some (some 10)⟩) 5).sprint_progress.days_total,
         actualBurndown
          (calculate_metrics [⟨some 10, some "Active", some "Task", none⟩]
            (some ⟨some (some 5), some (some 10)⟩) 5).total_points
          (calculate_metrics [⟨some 10, some "Active", some "Task", none⟩]
            (some ⟨some (some 5), some (some 10)⟩) 5).completed_points
          (calculate_metrics [⟨some 10, some "Active", some "Task", none⟩]
            (some ⟨some (some 5), some (some 10)⟩) 5).sprint_progress.days_total
          (calculate_metrics [⟨some 10, some "Active", some "Task", none⟩]
            (some ⟨some (some 5), some (some 10)⟩) 5).sprint_progress.days_elapsed) := by
    simp only [generate_burndown_data]
    rw [if_neg hne]
  have h1 : (generate_burndown_data [⟨some 10, some "Active", some "Task", none⟩]
      (some ⟨some (some 5), some (some 10)⟩) 5).1.length = 6 := by
    simp only [hgen]
    rw [idealBurndown_length, hdt]
    rfl
  have h2 : (generate_burndown_data [⟨some 10, some "Active", some "Task", none⟩]
      (some ⟨some (some 5), some (some 10)⟩) 5).2.length = 1 := by
    simp only [hgen]
    rw [actualBurndown_length, hde, hdt]
    norm_num
  exact ⟨hdt, h1, h2, by rw [h1, h2]; norm_num⟩

/-- C2 amended: generate_burndown_data returns the pair of empty lists when
days_total is 0; when days_total is positive the ideal series always has
days_total + 1 points, but the actual series has days_total + 1 points only
when 0 < days_elapsed <= days_total: it has a single point when
days_elapsed = 0 and days_elapsed + 1 points when days_elapsed exceeds
days_total, so the two series need not have equal shape. -/
theorem burndown_shape_amended (ws : List WorkItem) (it : Option IterationAttrs)
    (t : ℤ) :
    ((calculate_metrics ws it t).sprint_progress.days_total = 0 →
      generate_burndown_data ws it t = ([], [])) ∧
    (0 < (calculate_metrics ws it t).sprint_progress.days_total →
      (generate_burndown_data ws it t).1.length
        = (calculate_metrics ws it t).sprint_progress.days_total.toNat + 1 ∧
      (generate_burndown_data ws it t).2.length
        = (if (calculate_metrics ws it t).sprint_progress.days_elapsed = 0 then 1
           else if (calculate_metrics ws it t).sprint_progress.days_elapsed
               < (calculate_metrics ws it t).sprint_progress.days_total then
             (calculate_metrics ws it t).sprint_progress.days_total.toNat + 1
           else (calculate_metrics ws it t).sprint_progress.days_elapsed.toNat + 1)) := by
  constructor
  · intro h0
    simp only [generate_burndown_data]
    rw [if_pos h0]
  · intro hpos
    have hne : (calculate_metrics ws it t).sprint_progress.days_total ≠ 0 :=
      ne_of_gt hpos
    have hde0 := metrics_days_elapsed_nonneg ws it t
    have hgen : generate_burndown_data ws it t
        = (idealBurndown (calculate_metrics ws it t).total_points
            (calculate_metrics ws it t).sprint_progress.days_total,
           actualBurndown (calculate_metrics ws it t).total_points
            (calculate_metrics ws it t).completed_points
            (calculate_metrics ws it t).sprint_progress.days_total
            (calculate_metrics ws it t).sprint_progress.days_elapsed) := by
      simp only [generate_burndown_data]
      rw [if_neg hne]
    constructor
    · simp only [hgen]
      rw [idealBurndown_length]
      omega
    · simp only [hgen]
      rw [actualBurndown_length]
      split_ifs <;> omega

/-- Witness for C2 amended: a 5-day sprint observed on day 2. -/
theorem burndown_shape_amended_witness :
    (generate_burndown_data [⟨some 10, some "Active", some "Task", none⟩]
        (some ⟨some (some 0), some (some 5)⟩) 2).1.length
      = (calculate_metrics [⟨some 10, some "Active", some "Task", none⟩]
        (some ⟨some (some 0), some (some 5)⟩) 2).sprint_progress.days_total.toNat + 1 :=
  ((burndown_shape_amended _ _ _).2 (by decide)).1
